import Mathlib

/-!
Verification of the Chat Session Manager of the Ghana Legal AI web client
(`legal-web/src/hooks/use-chat.ts`), shallowly embedded in Lean 4.

The hook owns one WebSocket connection, a message list, a streaming flag,
a connection status, a reconnect-attempt counter and a pending reconnect
timer.  All handlers are single-threaded event-loop callbacks, so each is
embedded as a pure function on an explicit `ChatState`; the event loop
itself is a step relation `Step` with reachability predicate `Reach`.

`connect()` closes any existing socket but leaves that socket's
`onclose`/`onerror` handlers attached, and they later fire against the same
React state.  The state therefore counts superseded sockets whose close
event is still pending (`staleClosing`), and the step relation has explicit
stale-socket error/close events running the same handler bodies without
touching the current socket's ready state.

`generateId` in the source draws from `Math.random()`; it is embedded as an
ambient stream `gen : Nat → String` indexed by a counter `ctr` in the state
(one fresh index per generated id), so properties can be stated both for
arbitrary streams and for injective ones.
-/

namespace GhanaLegalChat

/-- Message role, from the `Message` interface of `use-chat.ts`. -/
inductive Role where
  | user
  | assistant
deriving DecidableEq, Repr

/-- One chat turn, from the `Message` interface of `use-chat.ts`.
Timestamps (`new Date()`) are modelled as an abstract clock value. -/
structure Message where
  id : String
  role : Role
  content : String
  timestamp : Nat
deriving DecidableEq, Repr

/-- The `ConnectionStatus` union type of `use-chat.ts`. -/
inductive ConnectionStatus where
  | connecting
  | connected
  | disconnected
  | error
deriving DecidableEq, Repr

/-- WebSocket ready states (`WebSocket.CONNECTING/OPEN/CLOSING/CLOSED`). -/
inductive ReadyState where
  | CONNECTING
  | OPEN
  | CLOSING
  | CLOSED
deriving DecidableEq, Repr

/-- An inbound frame after `JSON.parse`: the three fields the `onmessage`
handler inspects (`streaming`, `chunk`, `error`), each possibly absent. -/
structure InFrame where
  streaming : Option Bool := none
  chunk : Option String := none
  fault : Option String := none
deriving DecidableEq, Repr

/-- An outbound frame as built by `sendMessage`:
`JSON.stringify({message, expert_id})`. -/
structure OutFrame where
  message : String
  expertId : String
deriving DecidableEq, Repr

/-- The state owned by one mounted `useChat` hook: the React state
(`messages`, `isStreaming`, `connectionStatus`) together with the refs
(`wsRef` ready state, `reconnectAttempts`, `reconnectTimeoutRef`,
`currentExpertId`), the id-stream counter, the clock, a ghost log of
frames sent on the channel, and the number of superseded sockets whose
handlers remain attached with a close event still pending
(`staleClosing`). -/
structure ChatState where
  messages : List Message
  isStreaming : Bool
  connectionStatus : ConnectionStatus
  wsReady : Option ReadyState
  reconnectAttempts : Nat
  pendingDelay : Option Nat
  currentExpertId : String
  ctr : Nat
  now : Nat
  sent : List OutFrame
  staleClosing : Nat
deriving DecidableEq, Repr

/-- JavaScript truthiness of an optional string field (`data.chunk`,
`data.error`): present and non-empty. -/
def strTruthy : Option String → Bool
  | some s => s ≠ ""
  | none => false

/-- `maxReconnectAttempts = 5` in `use-chat.ts`. -/
def maxReconnectAttempts : Nat := 5

/-- The reconnect delay of the `onclose` handler:
`Math.min(1000 * Math.pow(2, reconnectAttempts.current), 30000)`. -/
def backoffDelay (attempts : Nat) : Nat := min (1000 * 2 ^ attempts) 30000

/-- Hook state as of the first render: `useState([])`, `useState(false)`,
`useState('connecting')`, null refs, attempt counter 0. -/
def initState (expertId : String) : ChatState :=
  { messages := []
    isStreaming := false
    connectionStatus := .connecting
    wsReady := none
    reconnectAttempts := 0
    pendingDelay := none
    currentExpertId := expertId
    ctr := 0
    now := 0
    sent := []
    staleClosing := 0 }

/-- The chunk branch of the `onmessage` handler: if the last message has
role `assistant` append the fragment to its content, otherwise append a
fresh assistant message whose content is the fragment. -/
def receiveChunk (gen : Nat → String) (st : ChatState) (c : String) : ChatState :=
  match st.messages.getLast? with
  | some lastMsg =>
    if lastMsg.role = Role.assistant then
      { st with messages :=
          st.messages.dropLast ++ [{ lastMsg with content := lastMsg.content ++ c }] }
    else
      { st with
          messages := st.messages ++
            [{ id := gen st.ctr, role := .assistant, content := c, timestamp := st.now }]
          ctr := st.ctr + 1 }
  | none =>
      { st with
          messages := st.messages ++
            [{ id := gen st.ctr, role := .assistant, content := c, timestamp := st.now }]
          ctr := st.ctr + 1 }

/-- The error-text wrapper of the `onmessage` handler's error branch. -/
def wrapError (e : String) : String :=
  "I apologize, but I encountered an error: " ++ e

/-- The `onmessage` handler of `use-chat.ts`, branch for branch:
`streaming === true && !chunk` → start streaming; truthy `chunk` → chunk
branch; `streaming === false` → stop streaming; truthy `error` → stop
streaming and append a wrapped assistant error message; otherwise ignore. -/
def handleFrame (gen : Nat → String) (st : ChatState) (f : InFrame) : ChatState :=
  if f.streaming = some true ∧ strTruthy f.chunk = false then
    { st with isStreaming := true }
  else if strTruthy f.chunk then
    receiveChunk gen st (f.chunk.getD "")
  else if f.streaming = some false then
    { st with isStreaming := false }
  else if strTruthy f.fault then
    { st with
        isStreaming := false
        messages := st.messages ++
          [{ id := gen st.ctr, role := .assistant,
             content := wrapError (f.fault.getD ""), timestamp := st.now }]
        ctr := st.ctr + 1 }
  else st

/-- Whether a socket in the given ready state still has a close event to
deliver once `close()` has been requested on it: `CONNECTING` and `OPEN`
sockets are moved to `CLOSING` by `close()` and will fire `onclose` later,
a `CLOSING` socket's close event is already on its way, a `CLOSED` (or
absent) socket has none left. -/
def pendingStale : Option ReadyState → Nat
  | some .CONNECTING => 1
  | some .OPEN => 1
  | some .CLOSING => 1
  | _ => 0

/-- The body of `connect()` up to handler installation: request `close()`
on any existing socket — the superseded socket keeps its handlers attached
and its close (and possibly error) event will still fire, so it is counted
in `staleClosing` — then set status `connecting` and create a fresh socket
(ready state `CONNECTING`).  The configured URL is a constant valid URL, so
the constructor's catch branch is dead. -/
def connectFn (st : ChatState) : ChatState :=
  { st with connectionStatus := .connecting, wsReady := some .CONNECTING,
            staleClosing := st.staleClosing + pendingStale st.wsReady }

/-- The `onopen` handler: status `connected`, attempt counter reset to 0;
the socket is now `OPEN`. -/
def openEvent (st : ChatState) : ChatState :=
  { st with connectionStatus := .connected, reconnectAttempts := 0,
            wsReady := some .OPEN }

/-- The `onerror` handler: status `error`.  A failed socket is no longer
`OPEN`; its close event is still to come. -/
def errorEvent (st : ChatState) : ChatState :=
  { st with connectionStatus := .error, wsReady := some .CLOSING }

/-- The `onclose` handler: status `disconnected`, streaming aborted, and if
fewer than `maxReconnectAttempts` attempts have been made, schedule one
reconnect timer with the exponential-backoff delay. -/
def closeEvent (st : ChatState) : ChatState :=
  if st.reconnectAttempts < maxReconnectAttempts then
    { st with connectionStatus := .disconnected, isStreaming := false,
              wsReady := some .CLOSED,
              pendingDelay := some (backoffDelay st.reconnectAttempts) }
  else
    { st with connectionStatus := .disconnected, isStreaming := false,
              wsReady := some .CLOSED }

/-- The `onerror` handler firing on a superseded socket: the same body as
`errorEvent` (status `error`), but the current socket's ready state is a
different socket's and is untouched. -/
def staleErrorEvent (st : ChatState) : ChatState :=
  { st with connectionStatus := .error }

/-- The `onclose` handler firing on a superseded socket: the same body as
`closeEvent` (status `disconnected`, streaming aborted, backoff timer
scheduled while attempts are below the cap), but the current socket's ready
state is untouched; one fewer stale close remains pending. -/
def staleCloseEvent (st : ChatState) : ChatState :=
  if st.reconnectAttempts < maxReconnectAttempts then
    { st with connectionStatus := .disconnected, isStreaming := false,
              pendingDelay := some (backoffDelay st.reconnectAttempts),
              staleClosing := st.staleClosing - 1 }
  else
    { st with connectionStatus := .disconnected, isStreaming := false,
              staleClosing := st.staleClosing - 1 }

/-- The scheduled timer callback: when a timer is pending, increment the
attempt counter and call `connect()`; with no pending timer nothing fires. -/
def timerFire (st : ChatState) : ChatState :=
  match st.pendingDelay with
  | some _ =>
      connectFn { st with reconnectAttempts := st.reconnectAttempts + 1,
                          pendingDelay := none }
  | none => st

/-- The exported `reconnect`: reset the attempt counter to 0, then
`connect()`. -/
def reconnectFn (st : ChatState) : ChatState :=
  connectFn { st with reconnectAttempts := 0 }

/-- The exported `sendMessage`: a no-op unless the socket exists and is
`OPEN`; otherwise append one user message and send one
`{message, expert_id}` frame with the currently selected expert id. -/
def sendMessageFn (gen : Nat → String) (st : ChatState) (text : String) : ChatState :=
  if st.wsReady = some ReadyState.OPEN then
    { st with
        messages := st.messages ++
          [{ id := gen st.ctr, role := .user, content := text, timestamp := st.now }]
        ctr := st.ctr + 1
        sent := st.sent ++ [{ message := text, expertId := st.currentExpertId }] }
  else st

/-- The exported `resetChat`, after its awaited `fetch` settles: on success
clear the local messages, on a thrown fetch leave all state untouched. -/
def resetChatFn (st : ChatState) (fetchOk : Bool) : ChatState :=
  if fetchOk then { st with messages := [] } else st

/-- The `useEffect` keeping `currentExpertId.current` equal to the latest
`expertId` prop. -/
def setExpertFn (st : ChatState) (p : String) : ChatState :=
  { st with currentExpertId := p }

/-- Passage of time between callbacks. -/
def tickFn (st : ChatState) (d : Nat) : ChatState :=
  { st with now := st.now + d }

/-- One event-loop callback of the hook.  Events of the current socket
carry their WebSocket preconditions: `open` only fires on a `CONNECTING`
socket, `error` on a `CONNECTING` or `OPEN` one, `close` on an `OPEN` or
failed (`CLOSING`) one, and inbound frames only arrive on an `OPEN` socket.
A superseded socket (handlers still attached after `connect()` replaced
it) can no longer fire `open` or deliver messages — `close()` was requested
on it — but its `onerror` may fire and its `onclose` fires exactly once
while a stale close is pending.  User-initiated calls (`sendMessage`,
`resetChat`, `reconnect`, persona selection) can occur at any time, as can
the mount-effect `connect()`; the reconnect timer fires only while one is
pending. -/
inductive Step (gen : Nat → String) : ChatState → ChatState → Prop where
  | connectCall (st : ChatState) : Step gen st (connectFn st)
  | socketOpen (st : ChatState) (h : st.wsReady = some ReadyState.CONNECTING) :
      Step gen st (openEvent st)
  | socketError (st : ChatState)
      (h : st.wsReady = some ReadyState.CONNECTING ∨ st.wsReady = some ReadyState.OPEN) :
      Step gen st (errorEvent st)
  | socketClose (st : ChatState)
      (h : st.wsReady = some ReadyState.OPEN ∨ st.wsReady = some ReadyState.CLOSING) :
      Step gen st (closeEvent st)
  | staleError (st : ChatState) (h : 0 < st.staleClosing) :
      Step gen st (staleErrorEvent st)
  | staleClose (st : ChatState) (h : 0 < st.staleClosing) :
      Step gen st (staleCloseEvent st)
  | inbound (st : ChatState) (f : InFrame) (h : st.wsReady = some ReadyState.OPEN) :
      Step gen st (handleFrame gen st f)
  | send (st : ChatState) (text : String) : Step gen st (sendMessageFn gen st text)
  | reset (st : ChatState) (ok : Bool) : Step gen st (resetChatFn st ok)
  | manualReconnect (st : ChatState) : Step gen st (reconnectFn st)
  | timer (st : ChatState) (d : Nat) (h : st.pendingDelay = some d) :
      Step gen st (timerFire st)
  | selectExpert (st : ChatState) (p : String) : Step gen st (setExpertFn st p)
  | tick (st : ChatState) (d : Nat) : Step gen st (tickFn st d)

/-- States reachable from a freshly mounted hook. -/
inductive Reach (gen : Nat → String) (e0 : String) : ChatState → Prop where
  | init : Reach gen e0 (initState e0)
  | step {s s' : ChatState} : Reach gen e0 s → Step gen s s' → Reach gen e0 s'

/-- The ids of the current message list, in order. -/
def idsOf (st : ChatState) : List String := st.messages.map Message.id

/-- Whether the last message of the sequence has role `assistant`
(`prev[prev.length - 1]?.role === 'assistant'`). -/
def lastIsAssistant (st : ChatState) : Bool :=
  match st.messages.getLast? with
  | some m => decide (m.role = Role.assistant)
  | none => false

/-- Concatenation of chunk texts in arrival order. -/
def concatChunks (ts : List String) : String := ts.foldl (· ++ ·) ""

/-- Deliver a sequence of chunk frames to the `onmessage` handler, in
order. -/
def applyChunks (gen : Nat → String) (st : ChatState) (ts : List String) : ChatState :=
  ts.foldl (fun s t => handleFrame gen s { chunk := some t }) st

/-- Every message id in the list is `gen` of an index already consumed by
the counter, and the consumed indices occur in strictly increasing order. -/
def IdIndexInv (gen : Nat → String) (st : ChatState) : Prop :=
  ∃ ks : List Nat,
    idsOf st = ks.map gen ∧ ks.Pairwise (· < ·) ∧ ∀ k ∈ ks, k < st.ctr

/-- An injective id stream: the n-th draw is the string of n copies of
`a`. -/
def genDistinct (n : Nat) : String := String.mk (List.replicate n 'a')

/-- A colliding id stream: every draw returns the same string, as
`Math.random` is permitted to do. -/
def genCollide (_ : Nat) : String := "x"

/-- A connected state reached by mounting and a successful socket open. -/
def stOpen : ChatState := openEvent (connectFn (initState "constitutional"))

/-- A state reached from `stOpen` by two `sendMessage` calls under the
colliding id stream: both user messages receive the id `"x"`. -/
def stCollide : ChatState :=
  sendMessageFn genCollide (sendMessageFn genCollide stOpen "hello") "world"

/-- A state reached from `stOpen` by two `sendMessage` calls under the
injective id stream. -/
def stTwoSends : ChatState :=
  sendMessageFn genDistinct (sendMessageFn genDistinct stOpen "hello") "world"

/-- A manual `reconnect` issued while connected: the old `OPEN` socket is
superseded with its close event still pending. -/
def stReconn : ChatState := reconnectFn stOpen

/-- The manual-reconnect race: after `reconnect`, the replacement socket
opens, and then the superseded socket's `onclose` fires — status becomes
`disconnected` while the live socket is `OPEN`. -/
def stStaleDisc : ChatState := staleCloseEvent (openEvent stReconn)

lemma receiveChunk_connectionStatus (gen : Nat → String) (st : ChatState) (c : String) :
    (receiveChunk gen st c).connectionStatus = st.connectionStatus := by
  unfold receiveChunk
  split
  · split <;> rfl
  · rfl

lemma handleFrame_connectionStatus (gen : Nat → String) (st : ChatState) (f : InFrame) :
    (handleFrame gen st f).connectionStatus = st.connectionStatus := by
  unfold handleFrame
  split_ifs <;> simp [receiveChunk_connectionStatus]

/-- C5: `resetChat` leaves the whole state (hence the message sequence)
untouched when its awaited `fetch` throws, and empties exactly the message
sequence when the request settles successfully. -/
theorem resetChat_outcomes (st : ChatState) :
    resetChatFn st false = st ∧
    resetChatFn st true = { st with messages := [] } :=
  ⟨rfl, rfl⟩

/-- C10: a frame whose `chunk` field is the empty string and which carries
no other field is ignored wholesale (empty strings are not truthy), and a
frame carrying `streaming: true` together with an empty-string `chunk` is
treated as a stream-start frame rather than a chunk frame. -/
theorem empty_chunk_ignored (gen : Nat → String) (st : ChatState) :
    handleFrame gen st { chunk := some "" } = st ∧
    handleFrame gen st { streaming := some true, chunk := some "" } =
      { st with isStreaming := true } :=
  ⟨rfl, rfl⟩

lemma handleFrame_fault (gen : Nat → String) (st : ChatState) (e : String)
    (he : e ≠ "") :
    handleFrame gen st { fault := some e } =
      { st with
          isStreaming := false
          messages := st.messages ++
            [{ id := gen st.ctr, role := .assistant, content := wrapError e,
               timestamp := st.now }]
          ctr := st.ctr + 1 } := by
  unfold handleFrame
  simp [strTruthy, he]

/-- C7: an inbound `{error: e}` frame with nonempty text `e` sets
`isStreaming` to false and appends exactly one assistant message whose
content wraps `e` (it contains `e` as a substring); the existing messages
and the connection status are unchanged. -/
theorem error_frame_behaviour (gen : Nat → String) (st : ChatState) (e : String)
    (he : e ≠ "") :
    (handleFrame gen st { fault := some e }).isStreaming = false ∧
    (handleFrame gen st { fault := some e }).messages =
      st.messages ++
        [{ id := gen st.ctr, role := .assistant, content := wrapError e,
           timestamp := st.now }] ∧
    (∃ a b, wrapError e = a ++ e ++ b) ∧
    (handleFrame gen st { fault := some e }).connectionStatus =
      st.connectionStatus := by
  rw [handleFrame_fault gen st e he]
  exact ⟨rfl, rfl, ⟨"I apologize, but I encountered an error: ", "", by
    simp [wrapError]⟩, rfl⟩

/-- Witness for C7 at the scenario of the spec: `{error:"rate limited"}`. -/
theorem error_frame_behaviour_witness :
    (handleFrame genDistinct (initState "constitutional")
        { fault := some "rate limited" }).isStreaming = false ∧
    (handleFrame genDistinct (initState "constitutional")
        { fault := some "rate limited" }).messages =
      (initState "constitutional").messages ++
        [{ id := genDistinct (initState "constitutional").ctr, role := .assistant,
           content := wrapError "rate limited",
           timestamp := (initState "constitutional").now }] ∧
    (∃ a b, wrapError "rate limited" = a ++ "rate limited" ++ b) ∧
    (handleFrame genDistinct (initState "constitutional")
        { fault := some "rate limited" }).connectionStatus =
      (initState "constitutional").connectionStatus :=
  error_frame_behaviour genDistinct (initState "constitutional") "rate limited"
    (by decide)

/-- C4: while the socket is open, `sendMessage` appends exactly one
user-role message with the given text, a fresh id and the current
timestamp, and sends exactly one `{message, expert_id}` frame carrying the
persona id selected at call time; a persona selected after the socket
opened is the one sent. -/
theorem sendMessage_connected (gen : Nat → String) (st : ChatState) (text p : String)
    (h : st.wsReady = some ReadyState.OPEN) :
    sendMessageFn gen st text =
      { st with
          messages := st.messages ++
            [{ id := gen st.ctr, role := .user, content := text,
               timestamp := st.now }]
          ctr := st.ctr + 1
          sent := st.sent ++ [{ message := text, expertId := st.currentExpertId }] } ∧
    (sendMessageFn gen (setExpertFn st p) text).sent =
      st.sent ++ [{ message := text, expertId := p }] := by
  constructor
  · unfold sendMessageFn
    rw [if_pos h]
  · unfold sendMessageFn setExpertFn
    simp [h]

/-- Witness for C4: sending `"Hello"` on the freshly opened connection,
after switching the persona to `"family"`. -/
theorem sendMessage_connected_witness :
    stOpen.wsReady = some ReadyState.OPEN ∧
    (sendMessageFn genDistinct stOpen "Hello").messages =
      stOpen.messages ++
        [{ id := genDistinct stOpen.ctr, role := .user, content := "Hello",
           timestamp := stOpen.now }] ∧
    (sendMessageFn genDistinct (setExpertFn stOpen "family") "Hello").sent =
      stOpen.sent ++ [{ message := "Hello", expertId := "family" }] :=
  ⟨rfl,
   by rw [(sendMessage_connected genDistinct stOpen "Hello" "family" rfl).1],
   (sendMessage_connected genDistinct stOpen "Hello" "family" rfl).2⟩

/-- C2: a close event with fewer than `maxReconnectAttempts` attempts made
schedules exactly one reconnect timer with delay `min(1000·2^attempts,
30000)` and leaves the counter to be incremented when that timer fires; the
delays for attempts 0..4 are exactly 1000, 2000, 4000, 8000, 16000 ms; a
close event at 5 or more attempts schedules nothing and leaves the status
`disconnected`; a firing timer increments the counter and re-enters
`connecting`; a manual `reconnect` resets the counter to zero. -/
theorem reconnect_backoff (st : ChatState) :
    (st.reconnectAttempts < maxReconnectAttempts →
      (closeEvent st).pendingDelay = some (backoffDelay st.reconnectAttempts) ∧
      (closeEvent st).connectionStatus = .disconnected ∧
      (closeEvent st).reconnectAttempts = st.reconnectAttempts ∧
      (closeEvent st).isStreaming = false) ∧
    ((List.range 5).map backoffDelay = [1000, 2000, 4000, 8000, 16000]) ∧
    (maxReconnectAttempts ≤ st.reconnectAttempts →
      (closeEvent st).pendingDelay = st.pendingDelay ∧
      (closeEvent st).connectionStatus = .disconnected) ∧
    (∀ d, st.pendingDelay = some d →
      (timerFire st).reconnectAttempts = st.reconnectAttempts + 1 ∧
      (timerFire st).connectionStatus = .connecting) ∧
    ((reconnectFn st).reconnectAttempts = 0 ∧
     (reconnectFn st).connectionStatus = .connecting) := by
  refine ⟨fun h5 => ?_, by decide, fun h5 => ?_, fun d hd => ?_, rfl, rfl⟩
  · unfold closeEvent
    rw [if_pos h5]
    exact ⟨rfl, rfl, rfl, rfl⟩
  · unfold closeEvent
    rw [if_neg (Nat.not_lt.mpr h5)]
    exact ⟨rfl, rfl⟩
  · unfold timerFire
    rw [hd]
    exact ⟨rfl, rfl⟩

/-- Witness for C2 at the first automatic failure: attempts 0, scheduled
delay 1000 ms; a pending timer increments the counter; `reconnect` resets
it. -/
theorem reconnect_backoff_witness :
    stOpen.reconnectAttempts < maxReconnectAttempts ∧
    (closeEvent stOpen).pendingDelay =
      some (backoffDelay stOpen.reconnectAttempts) ∧
    (timerFire (closeEvent stOpen)).reconnectAttempts =
      (closeEvent stOpen).reconnectAttempts + 1 ∧
    (reconnectFn (closeEvent stOpen)).reconnectAttempts = 0 :=
  ⟨by decide,
   ((reconnect_backoff stOpen).1 (by decide)).1,
   ((reconnect_backoff (closeEvent stOpen)).2.2.2.1 (backoffDelay 0)
     (((reconnect_backoff stOpen).1 (by decide)).1)).1,
   (reconnect_backoff (closeEvent stOpen)).2.2.2.2.1⟩

lemma sendMessageFn_connectionStatus (gen : Nat → String) (st : ChatState) (t : String) :
    (sendMessageFn gen st t).connectionStatus = st.connectionStatus := by
  unfold sendMessageFn
  split <;> rfl

lemma resetChatFn_connectionStatus (st : ChatState) (ok : Bool) :
    (resetChatFn st ok).connectionStatus = st.connectionStatus := by
  unfold resetChatFn
  split <;> rfl

lemma closeEvent_connectionStatus (st : ChatState) :
    (closeEvent st).connectionStatus = .disconnected := by
  unfold closeEvent
  split <;> rfl

lemma staleCloseEvent_connectionStatus (st : ChatState) :
    (staleCloseEvent st).connectionStatus = .disconnected := by
  unfold staleCloseEvent
  split <;> rfl

/-- C3 (amended): `sendMessage` is a no-op — the whole state, in particular
the message sequence and the log of frames sent on the channel, is
unchanged and the failure is only logged — exactly when the live socket is
not `OPEN`, which is the guard the code actually checks.  Gating on
`connectionStatus = connected` is not equivalent: a superseded socket's
close handler can set status `disconnected` while the replacement socket
is `OPEN`, and `sendMessage` then proceeds (see the counterexample). -/
theorem send_not_open_noop (gen : Nat → String) (st : ChatState) (text : String)
    (h : st.wsReady ≠ some ReadyState.OPEN) :
    sendMessageFn gen st text = st := by
  unfold sendMessageFn
  rw [if_neg h]

/-- Witness for C3 (amended) at the freshly mounted state, which has no
socket yet. -/
theorem send_not_open_noop_witness :
    (initState "constitutional").wsReady ≠ some ReadyState.OPEN ∧
    sendMessageFn genDistinct (initState "constitutional") "Hello" =
      initState "constitutional" :=
  ⟨by decide,
   send_not_open_noop genDistinct (initState "constitutional") "Hello" (by decide)⟩

/-- Counterexample to C3 as stated: after a manual `reconnect` issued while
connected, the new socket opens and then the superseded socket's `onclose`
fires, leaving `connectionStatus = disconnected` while the live socket is
`OPEN`.  A `sendMessage` in this reachable state is not a no-op: it appends
a user message and sends a frame. -/
theorem send_noop_counterexample :
    Reach genDistinct "constitutional" stStaleDisc ∧
    stStaleDisc.connectionStatus = ConnectionStatus.disconnected ∧
    stStaleDisc.wsReady = some ReadyState.OPEN ∧
    (sendMessageFn genDistinct stStaleDisc "Hello").messages =
      stStaleDisc.messages ++
        [{ id := genDistinct stStaleDisc.ctr, role := .user, content := "Hello",
           timestamp := stStaleDisc.now }] ∧
    (sendMessageFn genDistinct stStaleDisc "Hello").sent =
      stStaleDisc.sent ++ [{ message := "Hello", expertId := "constitutional" }] ∧
    sendMessageFn genDistinct stStaleDisc "Hello" ≠ stStaleDisc :=
  ⟨Reach.step
     (Reach.step
       (Reach.step
         (Reach.step (Reach.step Reach.init
           (Step.connectCall (initState "constitutional")))
           (Step.socketOpen (connectFn (initState "constitutional")) rfl))
         (Step.manualReconnect stOpen))
       (Step.socketOpen stReconn rfl))
     (Step.staleClose (openEvent stReconn) (by decide)),
   rfl, rfl, by decide, by decide, by decide⟩

/-- C6 (amended): `connectionStatus` is written only by connect calls
(mount, manual `reconnect`, a firing backoff timer — all to `connecting`),
by a socket open event (to `connected`, only on a `CONNECTING` current
socket), by a socket error event of the current or of a superseded socket
(to `error`), and by a socket close event of the current or of a
superseded socket (to `disconnected`); every other callback leaves it
unchanged.  Each handler writes its status unconditionally, so besides the
claimed edges also `connected→error`, `error→disconnected`,
`connecting→disconnected` and `disconnected→connected` are taken (see the
counterexample), and no smaller edge set is exhaustive. -/
theorem status_edges (gen : Nat → String) {s s' : ChatState}
    (hs : Step gen s s') :
    s'.connectionStatus = s.connectionStatus ∨
    ((s' = connectFn s ∨ s' = reconnectFn s ∨ s' = timerFire s) ∧
      s'.connectionStatus = ConnectionStatus.connecting) ∨
    (s' = openEvent s ∧ s.wsReady = some ReadyState.CONNECTING ∧
      s'.connectionStatus = ConnectionStatus.connected) ∨
    (((s' = errorEvent s ∧
        (s.wsReady = some ReadyState.CONNECTING ∨
         s.wsReady = some ReadyState.OPEN)) ∨
      (s' = staleErrorEvent s ∧ 0 < s.staleClosing)) ∧
      s'.connectionStatus = ConnectionStatus.error) ∨
    (((s' = closeEvent s ∧
        (s.wsReady = some ReadyState.OPEN ∨
         s.wsReady = some ReadyState.CLOSING)) ∨
      (s' = staleCloseEvent s ∧ 0 < s.staleClosing)) ∧
      s'.connectionStatus = ConnectionStatus.disconnected) := by
  cases hs with
  | connectCall => exact Or.inr (Or.inl ⟨Or.inl rfl, rfl⟩)
  | socketOpen h0 => exact Or.inr (Or.inr (Or.inl ⟨rfl, h0, rfl⟩))
  | socketError h0 =>
      exact Or.inr (Or.inr (Or.inr (Or.inl ⟨Or.inl ⟨rfl, h0⟩, rfl⟩)))
  | socketClose h0 =>
      exact Or.inr (Or.inr (Or.inr (Or.inr
        ⟨Or.inl ⟨rfl, h0⟩, closeEvent_connectionStatus s⟩)))
  | staleError h0 =>
      exact Or.inr (Or.inr (Or.inr (Or.inl ⟨Or.inr ⟨rfl, h0⟩, rfl⟩)))
  | staleClose h0 =>
      exact Or.inr (Or.inr (Or.inr (Or.inr
        ⟨Or.inr ⟨rfl, h0⟩, staleCloseEvent_connectionStatus s⟩)))
  | inbound f h0 => exact Or.inl (handleFrame_connectionStatus gen s f)
  | send text => exact Or.inl (sendMessageFn_connectionStatus gen s text)
  | reset ok => exact Or.inl (resetChatFn_connectionStatus s ok)
  | manualReconnect => exact Or.inr (Or.inl ⟨Or.inr (Or.inl rfl), rfl⟩)
  | timer d h0 =>
      exact Or.inr (Or.inl ⟨Or.inr (Or.inr rfl),
        by simp [timerFire, h0, connectFn]⟩)
  | selectExpert p => exact Or.inl rfl
  | tick d => exact Or.inl rfl

/-- Witness for C6 (amended) at the current-socket error event on the open
connection. -/
theorem status_edges_witness :
    (errorEvent stOpen).connectionStatus = stOpen.connectionStatus ∨
    ((errorEvent stOpen = connectFn stOpen ∨
      errorEvent stOpen = reconnectFn stOpen ∨
      errorEvent stOpen = timerFire stOpen) ∧
      (errorEvent stOpen).connectionStatus = ConnectionStatus.connecting) ∨
    (errorEvent stOpen = openEvent stOpen ∧
      stOpen.wsReady = some ReadyState.CONNECTING ∧
      (errorEvent stOpen).connectionStatus = ConnectionStatus.connected) ∨
    (((errorEvent stOpen = errorEvent stOpen ∧
        (stOpen.wsReady = some ReadyState.CONNECTING ∨
         stOpen.wsReady = some ReadyState.OPEN)) ∨
      (errorEvent stOpen = staleErrorEvent stOpen ∧ 0 < stOpen.staleClosing)) ∧
      (errorEvent stOpen).connectionStatus = ConnectionStatus.error) ∨
    (((errorEvent stOpen = closeEvent stOpen ∧
        (stOpen.wsReady = some ReadyState.OPEN ∨
         stOpen.wsReady = some ReadyState.CLOSING)) ∨
      (errorEvent stOpen = staleCloseEvent stOpen ∧ 0 < stOpen.staleClosing)) ∧
      (errorEvent stOpen).connectionStatus = ConnectionStatus.disconnected) :=
  status_edges genDistinct (Step.socketError stOpen (Or.inr rfl))

/-- Counterexample to C6 as stated, on two real executions.  A transport
failure on the live connection takes `connected→error` (error event) and
then `error→disconnected` (close event) — the sequence §7 of the spec
itself describes.  A manual `reconnect` issued while connected takes
`connecting→disconnected` when the superseded socket's close fires, and
then `disconnected→connected` when the replacement socket opens.  All four
edges are outside the claimed edge set. -/
theorem status_edges_counterexample :
    (Reach genDistinct "constitutional" stOpen ∧
     Step genDistinct stOpen (errorEvent stOpen) ∧
     stOpen.connectionStatus = ConnectionStatus.connected ∧
     (errorEvent stOpen).connectionStatus = ConnectionStatus.error ∧
     Step genDistinct (errorEvent stOpen) (closeEvent (errorEvent stOpen)) ∧
     (closeEvent (errorEvent stOpen)).connectionStatus =
       ConnectionStatus.disconnected) ∧
    (Reach genDistinct "constitutional" stReconn ∧
     Step genDistinct stReconn (staleCloseEvent stReconn) ∧
     stReconn.connectionStatus = ConnectionStatus.connecting ∧
     (staleCloseEvent stReconn).connectionStatus =
       ConnectionStatus.disconnected ∧
     Step genDistinct (staleCloseEvent stReconn)
       (openEvent (staleCloseEvent stReconn)) ∧
     (openEvent (staleCloseEvent stReconn)).connectionStatus =
       ConnectionStatus.connected) :=
  ⟨⟨Reach.step (Reach.step Reach.init (Step.connectCall (initState "constitutional")))
      (Step.socketOpen (connectFn (initState "constitutional")) rfl),
    Step.socketError stOpen (Or.inr rfl),
    rfl, rfl,
    Step.socketClose (errorEvent stOpen) (Or.inr rfl),
    closeEvent_connectionStatus (errorEvent stOpen)⟩,
   ⟨Reach.step
      (Reach.step (Reach.step Reach.init
        (Step.connectCall (initState "constitutional")))
        (Step.socketOpen (connectFn (initState "constitutional")) rfl))
      (Step.manualReconnect stOpen),
    Step.staleClose stReconn (by decide),
    rfl,
    staleCloseEvent_connectionStatus stReconn,
    Step.socketOpen (staleCloseEvent stReconn) (by decide),
    rfl⟩⟩

lemma handleFrame_chunk (gen : Nat → String) (st : ChatState) (c : String)
    (hc : c ≠ "") :
    handleFrame gen st { chunk := some c } = receiveChunk gen st c := by
  unfold handleFrame
  simp [strTruthy, hc]

lemma lastIsAssistant_true {st : ChatState} (h : lastIsAssistant st = true) :
    ∃ rest m, st.messages = rest ++ [m] ∧ m.role = Role.assistant := by
  unfold lastIsAssistant at h
  cases hLs : st.messages.getLast? with
  | none => rw [hLs] at h; cases h
  | some m =>
      rw [hLs] at h
      obtain ⟨rest, hrest⟩ := List.getLast?_eq_some_iff.mp hLs
      exact ⟨rest, m, hrest, of_decide_eq_true h⟩

lemma receiveChunk_extend (gen : Nat → String) (st : ChatState) (c : String)
    (rest : List Message) (m : Message) (hm : st.messages = rest ++ [m])
    (hrole : m.role = Role.assistant) :
    (receiveChunk gen st c).messages =
      rest ++ [{ m with content := m.content ++ c }] ∧
    (receiveChunk gen st c).ctr = st.ctr := by
  have hL : st.messages.getLast? = some m := by
    rw [hm]; exact List.getLast?_concat rest
  constructor <;> simp [receiveChunk, hL, hrole, hm]

lemma receiveChunk_new (gen : Nat → String) (st : ChatState) (c : String)
    (hA : lastIsAssistant st = false) :
    (receiveChunk gen st c).messages =
      st.messages ++
        [{ id := gen st.ctr, role := .assistant, content := c,
           timestamp := st.now }] ∧
    (receiveChunk gen st c).ctr = st.ctr + 1 := by
  unfold lastIsAssistant at hA
  cases hLs : st.messages.getLast? with
  | none => constructor <;> simp [receiveChunk, hLs]
  | some m =>
      rw [hLs] at hA
      have hrole : ¬ m.role = Role.assistant := of_decide_eq_false hA
      constructor <;> simp [receiveChunk, hLs, hrole]

lemma concat_foldl (ts : List String) (s : String) :
    List.foldl (· ++ ·) s ts = s ++ List.foldl (· ++ ·) "" ts := by
  induction ts generalizing s with
  | nil => simp
  | cons t ts ih =>
      simp only [List.foldl_cons]
      rw [ih (s ++ t), ih ("" ++ t), String.empty_append, String.append_assoc]

lemma concatChunks_cons (t : String) (ts : List String) :
    concatChunks (t :: ts) = t ++ concatChunks ts := by
  unfold concatChunks
  simp only [List.foldl_cons]
  rw [concat_foldl, String.empty_append]

lemma applyChunks_cons (gen : Nat → String) (st : ChatState) (t : String)
    (ts : List String) :
    applyChunks gen st (t :: ts) =
      applyChunks gen (handleFrame gen st { chunk := some t }) ts := rfl

lemma applyChunks_extend (gen : Nat → String) (rest : List Message) :
    ∀ ts : List String, (∀ u ∈ ts, u ≠ "") →
      ∀ (st : ChatState) (m : Message), st.messages = rest ++ [m] →
        m.role = Role.assistant →
        (applyChunks gen st ts).messages =
          rest ++ [{ m with content := m.content ++ concatChunks ts }] := by
  intro ts
  induction ts with
  | nil =>
      intro _ st m hm _
      rw [show applyChunks gen st [] = st from rfl, hm]
      simp [concatChunks]
  | cons t ts ih =>
      intro hts st m hm hrole
      have ht : t ≠ "" := hts t (List.mem_cons_self t ts)
      have hts2 : ∀ u ∈ ts, u ≠ "" := fun u hu => hts u (List.mem_cons_of_mem t hu)
      rw [applyChunks_cons, handleFrame_chunk gen st t ht]
      have hext := receiveChunk_extend gen st t rest m hm hrole
      rw [ih hts2 (receiveChunk gen st t) { m with content := m.content ++ t }
        hext.1 hrole]
      rw [concatChunks_cons, ← String.append_assoc]

/-- C1: a chunk frame whose text is nonempty appends its text to the last
message when that message has role `assistant` (no new message is
created), and otherwise appends a new assistant message whose content is
exactly the chunk text; consequently a sequence of chunk frames hitting a
state whose last message is not an assistant message produces a single new
assistant message whose content is the concatenation of all chunk texts in
arrival order. -/
theorem chunk_assembly (gen : Nat → String) (st : ChatState) (t : String)
    (ts : List String) (ht : t ≠ "") (hts : ∀ u ∈ ts, u ≠ "") :
    (lastIsAssistant st = true →
      ∃ rest m, st.messages = rest ++ [m] ∧ m.role = Role.assistant ∧
        (handleFrame gen st { chunk := some t }).messages =
          rest ++ [{ m with content := m.content ++ t }]) ∧
    (lastIsAssistant st = false →
      (handleFrame gen st { chunk := some t }).messages =
        st.messages ++
          [{ id := gen st.ctr, role := .assistant, content := t,
             timestamp := st.now }]) ∧
    (lastIsAssistant st = false →
      (applyChunks gen st (t :: ts)).messages =
        st.messages ++
          [{ id := gen st.ctr, role := .assistant,
             content := concatChunks (t :: ts), timestamp := st.now }]) := by
  refine ⟨fun hA => ?_, fun hB => ?_, fun hB => ?_⟩
  · obtain ⟨rest, m, hm, hrole⟩ := lastIsAssistant_true hA
    exact ⟨rest, m, hm, hrole, by
      rw [handleFrame_chunk gen st t ht]
      exact (receiveChunk_extend gen st t rest m hm hrole).1⟩
  · rw [handleFrame_chunk gen st t ht]
    exact (receiveChunk_new gen st t hB).1
  · rw [applyChunks_cons, handleFrame_chunk gen st t ht]
    have hnew := receiveChunk_new gen st t hB
    rw [applyChunks_extend gen st.messages ts hts (receiveChunk gen st t)
      { id := gen st.ctr, role := .assistant, content := t, timestamp := st.now }
      hnew.1 rfl]
    rw [concatChunks_cons]

/-- Witness for C1 at the scenario of the spec: chunks `"Article "` then
`"75."` arriving on the fresh connection yield one assistant message with
content `"Article 75."`. -/
theorem chunk_assembly_witness :
    lastIsAssistant stOpen = false ∧
    concatChunks ["Article ", "75."] = "Article 75." ∧
    (applyChunks genDistinct stOpen ["Article ", "75."]).messages =
      stOpen.messages ++
        [{ id := genDistinct stOpen.ctr, role := .assistant,
           content := concatChunks ["Article ", "75."],
           timestamp := stOpen.now }] :=
  ⟨by decide, by decide,
   (chunk_assembly genDistinct stOpen "Article " ["75."] (by decide)
     (by decide)).2.2 (by decide)⟩

/-- C8: a chunk frame only ever writes at the tail of the message
sequence: afterwards the last message is an assistant message, and all
other messages are exactly the non-tail messages of the previous state
(extension in place) or all of its messages (fresh tail) — so only one
assistant message is ever open for appending. -/
theorem chunk_touches_tail_only (gen : Nat → String) (st : ChatState)
    (c : String) (hc : c ≠ "") :
    ∃ m, (handleFrame gen st { chunk := some c }).messages.getLast? = some m ∧
      m.role = Role.assistant ∧
      ((handleFrame gen st { chunk := some c }).messages.dropLast =
          st.messages.dropLast ∨
       (handleFrame gen st { chunk := some c }).messages.dropLast =
          st.messages) := by
  rw [handleFrame_chunk gen st c hc]
  cases hA : lastIsAssistant st with
  | true =>
      obtain ⟨rest, m, hm, hrole⟩ := lastIsAssistant_true hA
      have hext := (receiveChunk_extend gen st c rest m hm hrole).1
      refine ⟨{ m with content := m.content ++ c }, ?_, hrole, Or.inl ?_⟩
      · rw [hext]; exact List.getLast?_concat rest
      · rw [hext, hm, List.dropLast_concat, List.dropLast_concat]
  | false =>
      have hnew := (receiveChunk_new gen st c hA).1
      refine ⟨{ id := gen st.ctr, role := .assistant, content := c,
                timestamp := st.now }, ?_, rfl, Or.inr ?_⟩
      · rw [hnew]; exact List.getLast?_concat _
      · rw [hnew, List.dropLast_concat]

/-- Witness for C8: a chunk arriving at the fresh connection opens a new
assistant tail. -/
theorem chunk_touches_tail_only_witness :
    ∃ m, (handleFrame genDistinct stOpen { chunk := some "Hi" }).messages.getLast? =
        some m ∧
      m.role = Role.assistant ∧
      ((handleFrame genDistinct stOpen { chunk := some "Hi" }).messages.dropLast =
          stOpen.messages.dropLast ∨
       (handleFrame genDistinct stOpen { chunk := some "Hi" }).messages.dropLast =
          stOpen.messages) :=
  chunk_touches_tail_only genDistinct stOpen "Hi" (by decide)

lemma idInv_append {gen : Nat → String} {st st' : ChatState} (m : Message)
    (h : IdIndexInv gen st) (hm : st'.messages = st.messages ++ [m])
    (hid : m.id = gen st.ctr) (hctr : st'.ctr = st.ctr + 1) :
    IdIndexInv gen st' := by
  obtain ⟨ks, h1, h2, h3⟩ := h
  refine ⟨ks ++ [st.ctr], ?_, ?_, ?_⟩
  · rw [idsOf, hm, List.map_append, List.map_append]
    rw [idsOf] at h1
    rw [h1]
    simp [hid]
  · refine List.pairwise_append.mpr ⟨h2, List.pairwise_singleton _ _, ?_⟩
    intro a ha b hb
    rw [List.mem_singleton] at hb
    exact hb ▸ h3 a ha
  · intro k hk
    rw [hctr]
    rcases List.mem_append.mp hk with hk | hk
    · exact Nat.lt_succ_of_lt (h3 k hk)
    · rw [List.mem_singleton] at hk
      exact hk ▸ Nat.lt_succ_self _

lemma idInv_same {gen : Nat → String} {st st' : ChatState}
    (h : IdIndexInv gen st) (hm : idsOf st' = idsOf st) (hctr : st.ctr ≤ st'.ctr) :
    IdIndexInv gen st' := by
  obtain ⟨ks, h1, h2, h3⟩ := h
  exact ⟨ks, hm.trans h1, h2, fun k hk => lt_of_lt_of_le (h3 k hk) hctr⟩

lemma idInv_receiveChunk {gen : Nat → String} {st : ChatState} (c : String)
    (h : IdIndexInv gen st) : IdIndexInv gen (receiveChunk gen st c) := by
  cases hA : lastIsAssistant st with
  | true =>
      obtain ⟨rest, m, hm, hrole⟩ := lastIsAssistant_true hA
      have hext := receiveChunk_extend gen st c rest m hm hrole
      refine idInv_same h ?_ (le_of_eq hext.2.symm)
      rw [idsOf, idsOf, hext.1, hm, List.map_append, List.map_append]
      rfl
  | false =>
      have hnew := receiveChunk_new gen st c hA
      exact idInv_append _ h hnew.1 rfl hnew.2

lemma idInv_handleFrame {gen : Nat → String} {st : ChatState} (f : InFrame)
    (h : IdIndexInv gen st) : IdIndexInv gen (handleFrame gen st f) := by
  unfold handleFrame
  split_ifs with hA hB hC hD
  · exact idInv_same h rfl le_rfl
  · exact idInv_receiveChunk _ h
  · exact idInv_same h rfl le_rfl
  · exact idInv_append _ h rfl rfl rfl
  · exact idInv_same h rfl le_rfl

lemma idInv_step {gen : Nat → String} {s s' : ChatState}
    (h : IdIndexInv gen s) (hs : Step gen s s') : IdIndexInv gen s' := by
  cases hs with
  | connectCall => exact idInv_same h rfl le_rfl
  | socketOpen h0 => exact idInv_same h rfl le_rfl
  | socketError h0 => exact idInv_same h rfl le_rfl
  | socketClose h0 =>
      refine idInv_same h ?_ ?_
      · unfold idsOf closeEvent; split <;> rfl
      · unfold closeEvent; split <;> exact le_rfl
  | staleError h0 => exact idInv_same h rfl le_rfl
  | staleClose h0 =>
      refine idInv_same h ?_ ?_
      · unfold idsOf staleCloseEvent; split <;> rfl
      · unfold staleCloseEvent; split <;> exact le_rfl
  | inbound f h0 => exact idInv_handleFrame f h
  | send text =>
      unfold sendMessageFn
      split_ifs with hO
      · exact idInv_append _ h rfl rfl rfl
      · exact idInv_same h rfl le_rfl
  | reset ok =>
      unfold resetChatFn
      split_ifs with hO
      · exact ⟨[], rfl, List.Pairwise.nil, by simp⟩
      · exact idInv_same h rfl le_rfl
  | manualReconnect => exact idInv_same h rfl le_rfl
  | timer d h0 =>
      refine idInv_same h ?_ ?_
      · unfold idsOf timerFire; split <;> rfl
      · unfold timerFire; split <;> exact le_rfl
  | selectExpert p => exact idInv_same h rfl le_rfl
  | tick d => exact idInv_same h rfl le_rfl

lemma reach_idInv {gen : Nat → String} {e0 : String} {st : ChatState}
    (hr : Reach gen e0 st) : IdIndexInv gen st := by
  induction hr with
  | init => exact ⟨[], rfl, List.Pairwise.nil, by simp⟩
  | step hr hs ih => exact idInv_step ih hs

lemma genDistinct_inj : Function.Injective genDistinct := by
  intro a b hab
  have h := congrArg (fun s => s.data.length) hab
  simpa [genDistinct] using h

/-- C9 (amended): in every reachable state the message ids are pairwise
distinct, provided the client-side id stream never repeats a value
(injective stream).  The code itself does not enforce this: `generateId`
draws from `Math.random`, which may repeat (see the counterexample). -/
theorem message_ids_nodup (gen : Nat → String) (e0 : String)
    (hg : Function.Injective gen) {st : ChatState} (hr : Reach gen e0 st) :
    (idsOf st).Nodup := by
  obtain ⟨ks, h1, h2, _⟩ := reach_idInv hr
  rw [h1]
  exact List.Nodup.map hg (h2.imp fun hlt => Nat.ne_of_lt hlt)

/-- Witness for C9 (amended): two sends under an injective id stream give
distinct ids. -/
theorem message_ids_nodup_witness :
    idsOf stTwoSends = [genDistinct 0, genDistinct 1] ∧
    (idsOf stTwoSends).Nodup :=
  ⟨rfl,
   message_ids_nodup genDistinct "constitutional" genDistinct_inj
     (Reach.step
       (Reach.step
         (Reach.step (Reach.step Reach.init
           (Step.connectCall (initState "constitutional")))
           (Step.socketOpen (connectFn (initState "constitutional")) rfl))
         (Step.send stOpen "hello"))
       (Step.send (sendMessageFn genDistinct stOpen "hello") "world"))⟩

/-- Counterexample to C9 as stated: `generateId` draws from `Math.random`,
so a stream that repeats a value is possible; under it a reachable state
(open the socket, send two messages) holds two distinct messages with the
same id `"x"`. -/
theorem message_ids_collide :
    Reach genCollide "constitutional" stCollide ∧
    idsOf stCollide = ["x", "x"] ∧
    ¬ (idsOf stCollide).Nodup :=
  ⟨Reach.step
     (Reach.step
       (Reach.step (Reach.step Reach.init
         (Step.connectCall (initState "constitutional")))
         (Step.socketOpen (connectFn (initState "constitutional")) rfl))
       (Step.send stOpen "hello"))
     (Step.send (sendMessageFn genCollide stOpen "hello") "world"),
   by decide, by decide⟩

end GhanaLegalChat
